import Mathlib

/-!
Verification of the order-lifecycle and authorization logic of the
marketplace backend (`src/server.js`).

The JavaScript handlers are embedded shallowly: each Express route handler
becomes a pure Lean function from its inputs (current time, the verified
JWT claim set `req.user`, the request body / URL parameters, and the
current contents of the order store) to its HTTP outcome and the updated
store.  MongoDB documents become Lean structures; absent JSON fields are
`Option.none`; JavaScript `x || d` coalescing on string fields (where
`undefined` and the empty string are falsy) is `jsOrStr`.
-/

namespace Marketplace

/-- JavaScript `x || d` on an optional string field: `undefined` (absent)
and the empty string are falsy and select the default `d`. -/
def jsOrStr : Option String → String → String
  | some s, d => if s = "" then d else s
  | none, d => d

/-- JavaScript truthiness `!x` checks on optional string fields of a JSON
body (`if (!orderId || !status)` in the update handler): absent and empty
strings are falsy. -/
def truthyStr : Option String → Bool
  | some s => s != ""
  | none => false

/-- The last six characters of the decimal print of the current timestamp,
as in `ORD${Date.now().toString().slice(-6)}` (server.js line 340). -/
def lastSix (n : Nat) : String :=
  let s := toString n
  s.drop (s.length - 6)

/-- An Order document, following `orderSchema` (server.js lines 75-110).
Fields the schema declares with a `default` are always present and are
plain `String`/`Nat`; the rest are `Option` (a document may lack them).
Dates are modelled as `Nat` timestamps, numbers as `Int`. -/
structure Order where
  id : Option String
  buyerId : Option String
  buyerName : Option String
  buyerEmail : Option String
  buyerMobile : Option String
  buyerUsername : Option String
  buyingTime : Option Nat
  manufacturerId : Option String
  manufacturerName : Option String
  manufacturerOwner : String
  manufacturerMobile : String
  manufacturerEmail : String
  manufacturerCity : String
  manufacturerState : String
  product : Option String
  quantity : Option Int
  price : Option Int
  total : Option Int
  status : String
  orderDate : Option Nat
  statusUpdatedAt : Option Nat
  createdAt : Nat
  updatedAt : Nat
  department : String
  category : String
  district : String
  state : String
  mfgDate : Option Nat
deriving DecidableEq, Repr

/-- The verified JWT claim set placed in `req.user` by `authenticateToken`.
Buyer tokens carry `name` and `buyerId`; manufacturer tokens do not. -/
structure Claims where
  id : String
  type : String
  name : Option String
  buyerId : Option String
deriving DecidableEq, Repr

/-- The JSON body a client sends to `POST /api/orders`.  Every field is
optional: the route performs no schema validation.  `buyerId` is listed
because a client may send it; the handler never reads it. -/
structure OrderBody where
  buyerId : Option String := none
  manufacturerId : Option String := none
  manufacturerName : Option String := none
  manufacturerOwner : Option String := none
  manufacturerMobile : Option String := none
  manufacturerEmail : Option String := none
  manufacturerCity : Option String := none
  manufacturerState : Option String := none
  product : Option String := none
  quantity : Option Int := none
  price : Option Int := none
  total : Option Int := none
  status : Option String := none
  orderDate : Option Nat := none
  department : Option String := none
  category : Option String := none
  district : Option String := none
  state : Option String := none
  mfgDate : Option Nat := none
deriving DecidableEq, Repr

/-- Outcome of `POST /api/orders`: 403 for a non-buyer token, otherwise
the persisted order. -/
inductive CreateResult
  | accessDenied
  | created (order : Order)
deriving DecidableEq, Repr

/-- The created order of a `CreateResult`, when there is one. -/
def createdOrder : CreateResult → Option Order
  | .accessDenied => none
  | .created o => some o

/-- `POST /api/orders` (server.js lines 334-393).  Field for field from the
`new Order({...})` literal: `buyerId` comes from the token claims
(`req.user.buyerId || req.user.id.toString()`), the manufacturer contact
fields default with `|| 'N/A'`, `status` is `req.body.status || 'Pending'`,
`total` is stored exactly as supplied (`total: req.body.total`), and
`orderDate` defaults to the current time when absent. -/
def postOrders (now : Nat) (user : Claims) (body : OrderBody) : CreateResult :=
  if user.type ≠ "buyer" then .accessDenied
  else
    .created {
      id := some ("ORD" ++ lastSix now)
      buyerId := some (jsOrStr user.buyerId user.id)
      buyerName := user.name
      buyerEmail := none
      buyerMobile := none
      buyerUsername := none
      buyingTime := none
      manufacturerId := body.manufacturerId
      manufacturerName := body.manufacturerName
      manufacturerOwner := jsOrStr body.manufacturerOwner "N/A"
      manufacturerMobile := jsOrStr body.manufacturerMobile "N/A"
      manufacturerEmail := jsOrStr body.manufacturerEmail "N/A"
      manufacturerCity := jsOrStr body.manufacturerCity "N/A"
      manufacturerState := jsOrStr body.manufacturerState "Tamil Nadu"
      product := body.product
      quantity := body.quantity
      price := body.price
      total := body.total
      status := jsOrStr body.status "Pending"
      orderDate := some (body.orderDate.getD now)
      statusUpdatedAt := none
      createdAt := now
      updatedAt := now
      department := jsOrStr body.department ""
      category := jsOrStr body.category ""
      district := jsOrStr body.district ""
      state := jsOrStr body.state "Tamil Nadu"
      mfgDate := body.mfgDate
    }

/-- The order store: documents keyed by their Mongo `_id`. -/
abbrev OrderId := String
abbrev Store := List (OrderId × Order)

/-- `Order.findById(id)`. -/
def findById (store : Store) (oid : OrderId) : Option Order :=
  (store.find? fun p => p.1 == oid).map Prod.snd

/-- `Order.findOne({ _id: orderId, manufacturerId: req.user.id })`
(server.js lines 433-436): the document must match both the id and the
ownership field in one query. -/
def findOneOwned (store : Store) (oid : OrderId) (mid : String) : Option Order :=
  (store.find? fun p => p.1 == oid && p.2.manufacturerId == some mid).map Prod.snd

/-- The document mutation of `findByIdAndUpdate(id, { status, statusUpdatedAt })`:
only these two fields change. -/
def setOrderStatus (o : Order) (st : String) (now : Nat) : Order :=
  { o with status := st, statusUpdatedAt := some now }

/-- `Order.findByIdAndUpdate(id, { status, statusUpdatedAt: new Date() })`
applied to the store: the write is keyed only by the id — it is not
conditioned on the document still holding any expected prior status. -/
def updateStatusById (store : Store) (oid : OrderId) (st : String) (now : Nat) : Store :=
  store.map fun p => if p.1 == oid then (p.1, setOrderStatus p.2 st now) else p

/-- As `setOrderStatus`, for `PUT /api/order/status/:id`, whose body status
may be absent: Mongoose strips `undefined` values from an update, so an
absent `req.body.status` leaves `status` unchanged while `statusUpdatedAt`
is still stamped. -/
def setOrderStatusOpt (o : Order) (st : Option String) (now : Nat) : Order :=
  { o with status := st.getD o.status, statusUpdatedAt := some now }

/-- The store write of `PUT /api/order/status/:id` (server.js lines 593-596). -/
def updateStatusOptById (store : Store) (oid : OrderId) (st : Option String) (now : Nat) : Store :=
  store.map fun p => if p.1 == oid then (p.1, setOrderStatusOpt p.2 st now) else p

/-- The `statusWorkflow` table (server.js lines 443-449), keyed by the
current status string; unknown keys give `undefined`. -/
def statusWorkflow : String → Option (List String)
  | "Pending" => some ["Allowed", "Cancelled"]
  | "Allowed" => some ["Approved", "Cancelled"]
  | "Approved" => some ["Delivered", "Cancelled"]
  | "Delivered" => some []
  | "Cancelled" => some []
  | _ => none

/-- `statusWorkflow[order.status] || []` (server.js line 451). -/
def validNextStatuses (st : String) : List String :=
  (statusWorkflow st).getD []

/-- HTTP outcome of `PUT /api/manufacturer/orders/update`: 403 for a
non-manufacturer token, 400 for a missing field, 404 when the owned-order
query finds nothing (also when the order exists but belongs to someone
else), 400 with the allowed set for an illegal transition, 200 with the
updated record on success. -/
inductive UpdateResult
  | accessDenied
  | badRequest
  | notFound
  | invalidTransition (allowed : List String)
  | ok (order : Order)
deriving DecidableEq, Repr

/--`true` on every non-success outcome of the update route. -/
def UpdateResult.isFailure : UpdateResult → Bool
  | .ok _ => false
  | _ => true

/-- The read-and-validate phase of `PUT /api/manufacturer/orders/update`
(server.js lines 421-457): everything the handler does before its
`findByIdAndUpdate` write, ending either in an early error response or in
a validated pending write. -/
inductive Validated
  | fail (r : UpdateResult)
  | proceed (oid st : String) (order : Order)
deriving DecidableEq, Repr

/-- Read-and-validate phase of `PUT /api/manufacturer/orders/update`:
actor-kind check, required-field check, combined existence/ownership
lookup, then the workflow-table check against the status read. -/
def updateValidate (user : Claims) (orderId status : Option String) (store : Store) :
    Validated :=
  if user.type ≠ "manufacturer" then .fail .accessDenied
  else if !truthyStr orderId || !truthyStr status then .fail .badRequest
  else
    match findOneOwned store (orderId.getD "") user.id with
    | none => .fail .notFound
    | some order =>
      if (validNextStatuses order.status).contains (status.getD "") then
        .proceed (orderId.getD "") (status.getD "") order
      else .fail (.invalidTransition (validNextStatuses order.status))

/-- The write phase: a validated request performs the unconditional
`findByIdAndUpdate` keyed by the id and answers with the updated record
(`{ new: true }`); a failed validation answers immediately, leaving the
store untouched. -/
def applyValidated (now : Nat) (v : Validated) (store : Store) : UpdateResult × Store :=
  match v with
  | .fail r => (r, store)
  | .proceed oid st order => (.ok (setOrderStatus order st now), updateStatusById store oid st now)

/-- `PUT /api/manufacturer/orders/update` (server.js lines 421-478), run
to completion with no interleaved request: validate, then write. -/
def manufacturerOrdersUpdate (now : Nat) (user : Claims) (orderId status : Option String)
    (store : Store) : UpdateResult × Store :=
  applyValidated now (updateValidate user orderId status store) store

/-- Two requests against the same store under the read-read-write-write
interleaving: both handlers pass their read-and-validate phase against the
initial store (each `findOne` completes before either `findByIdAndUpdate`
runs), then the writes land in order. -/
def interleavedUpdates (now : Nat)
    (u1 : Claims) (oid1 st1 : Option String)
    (u2 : Claims) (oid2 st2 : Option String)
    (store : Store) : UpdateResult × UpdateResult × Store :=
  let v1 := updateValidate u1 oid1 st1 store
  let v2 := updateValidate u2 oid2 st2 store
  let r1 := applyValidated now v1 store
  let r2 := applyValidated now v2 r1.2
  (r1.1, r2.1, r2.2)

/-- HTTP outcome of `PUT /api/order/status/:id`: 403 for a non-manufacturer
token, 404 for a missing order, 500 when the document lacks the ownership
field (`order.manufacturerId.toString()` throws), 403 for a non-owner, and
200 on success —  carrying the order payload included in the response,
which for this route is none (`res.json({ message: "Status updated" })`). -/
inductive StatusByIdResult
  | accessDenied
  | notFound
  | serverError
  | notAuthorized
  | ok (returned : Option Order)
deriving DecidableEq, Repr

/-- `true` on every non-success outcome of the status-by-id route. -/
def StatusByIdResult.isFailure : StatusByIdResult → Bool
  | .ok _ => false
  | _ => true

/-- `PUT /api/order/status/:id` (server.js lines 578-601): actor-kind
check, `findById`, ownership comparison, then an unconditional
`findByIdAndUpdate` with whatever `req.body.status` holds — this route
never consults `statusWorkflow`. -/
def orderStatusById (now : Nat) (user : Claims) (oid : OrderId) (bodyStatus : Option String)
    (store : Store) : StatusByIdResult × Store :=
  if user.type ≠ "manufacturer" then (.accessDenied, store)
  else
    match findById store oid with
    | none => (.notFound, store)
    | some order =>
      match order.manufacturerId with
      | none => (.serverError, store)
      | some mid =>
        if mid ≠ user.id then (.notAuthorized, store)
        else (.ok none, updateStatusOptById store oid bodyStatus now)

/-- `Order.find({ manufacturerId: mid })`.  The routes sort by `createdAt`
descending; the set of returned documents is what matters here. -/
def findByManufacturer (store : Store) (mid : String) : List Order :=
  (store.map Prod.snd).filter fun o => o.manufacturerId == some mid

/-- `Order.find({ buyerId: bid })`. -/
def findByBuyer (store : Store) (bid : String) : List Order :=
  (store.map Prod.snd).filter fun o => o.buyerId == some bid

/-- Outcome of an authenticated order-list route. -/
inductive ListResult
  | accessDenied
  | ok (orders : List Order)
deriving DecidableEq, Repr

/-- `GET /api/manufacturer/orders` (server.js lines 395-418): manufacturer
token required; lists orders with `manufacturerId: req.user.id`. -/
def getManufacturerOrders (user : Claims) (store : Store) : ListResult :=
  if user.type ≠ "manufacturer" then .accessDenied
  else .ok (findByManufacturer store user.id)

/-- `GET /api/orders/buyer` (server.js lines 550-562): buyer token
required; lists orders with `buyerId: req.user.buyerId || req.user.id`. -/
def getOrdersBuyer (user : Claims) (store : Store) : ListResult :=
  if user.type ≠ "buyer" then .accessDenied
  else .ok (findByBuyer store (jsOrStr user.buyerId user.id))

/-- `GET /api/orders/manufacturer` (server.js lines 565-575). -/
def getOrdersManufacturer (user : Claims) (store : Store) : ListResult :=
  if user.type ≠ "manufacturer" then .accessDenied
  else .ok (findByManufacturer store user.id)

/-- `GET /api/buyer/:buyerId/orders` (server.js lines 481-493).  The route
carries no `authenticateToken` middleware: any caller, with no token at
all, receives every order of the buyer id named in the URL. -/
def getBuyerOrdersParam (buyerId : String) (store : Store) : List Order :=
  findByBuyer store buyerId

/-- `GET /api/orders/manufacturer/:id` (server.js lines 604-608),
unauthenticated. -/
def getOrdersManufacturerParam (mid : String) (store : Store) : List Order :=
  findByManufacturer store mid

/-- `GET /api/orders/buyer/:id` (server.js lines 610-614),
unauthenticated. -/
def getOrdersBuyerParam (bid : String) (store : Store) : List Order :=
  findByBuyer store bid

/-! ### Concrete fixtures used by counterexamples and witnesses -/

/-- A stored order owned by manufacturer `m1`, placed by buyer `b1`,
sitting in the initial `Pending` state. -/
def sampleOrder : Order := {
  id := some "ORD000001"
  buyerId := some "b1"
  buyerName := some "Buyer One"
  buyerEmail := none
  buyerMobile := none
  buyerUsername := none
  buyingTime := none
  manufacturerId := some "m1"
  manufacturerName := some "Acme"
  manufacturerOwner := "N/A"
  manufacturerMobile := "N/A"
  manufacturerEmail := "N/A"
  manufacturerCity := "N/A"
  manufacturerState := "Tamil Nadu"
  product := some "Widget"
  quantity := some 3
  price := some 100
  total := some 300
  status := "Pending"
  orderDate := some 1000
  statusUpdatedAt := none
  createdAt := 1000
  updatedAt := 1000
  department := ""
  category := ""
  district := ""
  state := "Tamil Nadu"
  mfgDate := none }

/-- As `sampleOrder` but already in the `Approved` state. -/
def sampleOrderApproved : Order := { sampleOrder with status := "Approved" }

/-- Claims of the manufacturer owning `sampleOrder`. -/
def mfr1 : Claims := { id := "m1", type := "manufacturer", name := none, buyerId := none }

/-- Claims of a different manufacturer. -/
def mfr2 : Claims := { id := "m2", type := "manufacturer", name := none, buyerId := none }

/-- Claims of buyer `b1`. -/
def buyer1 : Claims :=
  { id := "b1", type := "buyer", name := some "Buyer One", buyerId := some "b1" }

/-- A store holding exactly `sampleOrder` under id `o1`. -/
def store0 : Store := [("o1", sampleOrder)]

/-- A store holding the `Approved` variant under id `o1`. -/
def storeApproved : Store := [("o1", sampleOrderApproved)]

/-- Equality of every creation-time field of two orders: everything except
the two mutable fields `status` and `statusUpdatedAt`. -/
def sameSnapshotFields (a b : Order) : Prop :=
  a.id = b.id ∧ a.buyerId = b.buyerId ∧ a.buyerName = b.buyerName
  ∧ a.buyerEmail = b.buyerEmail ∧ a.buyerMobile = b.buyerMobile
  ∧ a.buyerUsername = b.buyerUsername ∧ a.buyingTime = b.buyingTime
  ∧ a.manufacturerId = b.manufacturerId ∧ a.manufacturerName = b.manufacturerName
  ∧ a.manufacturerOwner = b.manufacturerOwner ∧ a.manufacturerMobile = b.manufacturerMobile
  ∧ a.manufacturerEmail = b.manufacturerEmail ∧ a.manufacturerCity = b.manufacturerCity
  ∧ a.manufacturerState = b.manufacturerState ∧ a.product = b.product
  ∧ a.quantity = b.quantity ∧ a.price = b.price ∧ a.total = b.total
  ∧ a.orderDate = b.orderDate ∧ a.createdAt = b.createdAt ∧ a.updatedAt = b.updatedAt
  ∧ a.department = b.department ∧ a.category = b.category ∧ a.district = b.district
  ∧ a.state = b.state ∧ a.mfgDate = b.mfgDate

/-- A creation body supplying only a status, as a client trying to start
an order outside `Pending` would. -/
def bodyStatusDelivered : OrderBody := { status := some "Delivered" }

/-- A creation body with `price = 100`, `quantity = 3` and no `total`. -/
def bodyPrice100Qty3 : OrderBody := { price := some 100, quantity := some 3 }

/-! ### Claim C2 — initial status of a created order -/

/-- Claim C2 counterexample: `POST /api/orders` with a body carrying
`status: "Delivered"` stores the order with status `Delivered`, not
`Pending` — the handler uses `req.body.status || 'Pending'`, so a
client-supplied status is honoured. -/
theorem c2_created_status_from_body :
    (createdOrder (postOrders 1000 buyer1 bodyStatusDelivered)).map Order.status
        = some "Delivered"
    ∧ (createdOrder (postOrders 1000 buyer1 bodyStatusDelivered)).map Order.status
        ≠ some "Pending" :=
  ⟨rfl, by decide⟩

/-- Claim C2 (amended): for every order-creation request by a buyer, the
created order's status is the client-supplied status when a non-empty one
is supplied, and `Pending` otherwise. -/
theorem c2_created_status (now : Nat) (user : Claims) (body : OrderBody)
    (h : user.type = "buyer") :
    (createdOrder (postOrders now user body)).map Order.status
      = some (jsOrStr body.status "Pending") := by
  unfold postOrders
  rw [if_neg (by simp [h])]
  rfl

/-- Claim C2 witness: a buyer creating an order with no status field gets
status `Pending`. -/
theorem c2_created_status_witness :
    (createdOrder (postOrders 1000 buyer1 {})).map Order.status = some "Pending" :=
  c2_created_status 1000 buyer1 {} rfl

/-! ### Claim C3 — stored total -/

/-- Claim C3 counterexample: creating an order with `price = 100`,
`quantity = 3` and no `total` stores the order with `total` unset — the
handler stores `total: req.body.total` verbatim and never computes
`price * quantity`, so the stored total is not `300`. -/
theorem c3_total_not_computed :
    (createdOrder (postOrders 1000 buyer1 bodyPrice100Qty3)).map Order.total = some none
    ∧ (createdOrder (postOrders 1000 buyer1 bodyPrice100Qty3)).map Order.total
        ≠ some (some 300) :=
  ⟨rfl, by decide⟩

/-- Claim C3 (amended): the stored total is exactly the total field of the
request body — unset when the client supplies none; no `price * quantity`
computation takes place. -/
theorem c3_total_verbatim (now : Nat) (user : Claims) (body : OrderBody)
    (h : user.type = "buyer") :
    (createdOrder (postOrders now user body)).map Order.total = some body.total := by
  unfold postOrders
  rw [if_neg (by simp [h])]
  rfl

/-- Claim C3 witness: the concrete scenario of the claim, price 100 and
quantity 3 with no total, stores an unset total. -/
theorem c3_total_verbatim_witness :
    (createdOrder (postOrders 1000 buyer1 bodyPrice100Qty3)).map Order.total = some none :=
  c3_total_verbatim 1000 buyer1 bodyPrice100Qty3 rfl

/-! ### Claim C10 — buyerId comes from the token -/

/-- Claim C10: the stored `buyerId` is `req.user.buyerId` falling back to
`req.user.id` — both fields of the verified token claims — and is the same
whatever the request body holds (in particular whatever `buyerId` the
body carries). -/
theorem c10_buyerId_from_token (now : Nat) (user : Claims) (body body2 : OrderBody)
    (h : user.type = "buyer") :
    (createdOrder (postOrders now user body)).map Order.buyerId
      = some (some (jsOrStr user.buyerId user.id))
    ∧ (createdOrder (postOrders now user body)).map Order.buyerId
      = (createdOrder (postOrders now user body2)).map Order.buyerId := by
  have h2 : ¬(user.type ≠ "buyer") := by simp [h]
  unfold postOrders
  rw [if_neg h2, if_neg h2]
  exact ⟨rfl, rfl⟩

/-- Claim C10 witness: buyer `b1` sending a body that names a different
buyer still gets an order attributed to `b1`. -/
theorem c10_buyerId_from_token_witness :
    (createdOrder (postOrders 1000 buyer1 { buyerId := some "victim" })).map Order.buyerId
      = some (some "b1")
    ∧ (createdOrder (postOrders 1000 buyer1 { buyerId := some "victim" })).map Order.buyerId
      = (createdOrder (postOrders 1000 buyer1 {})).map Order.buyerId :=
  c10_buyerId_from_token 1000 buyer1 { buyerId := some "victim" } {} rfl

/-! ### Claim C1 — the transition table guards every status mutation -/

/-- Claim C1 counterexample: `PUT /api/order/status/:id` applies
`Pending → Approved` — an edge absent from the table — and succeeds: the
owning manufacturer requests `Approved` on a `Pending` order, the route
answers success and the store now holds the order with status `Approved`,
although `Approved` is not in the allowed-next set of `Pending`. -/
theorem c1_statusById_bypasses_workflow :
    (orderStatusById 2000 mfr1 "o1" (some "Approved") store0).1 = StatusByIdResult.ok none
    ∧ findById (orderStatusById 2000 mfr1 "o1" (some "Approved") store0).2 "o1"
        = some (setOrderStatusOpt sampleOrder (some "Approved") 2000)
    ∧ sampleOrder.status = "Pending"
    ∧ (setOrderStatusOpt sampleOrder (some "Approved") 2000).status = "Approved"
    ∧ validNextStatuses "Pending" = ["Allowed", "Cancelled"]
    ∧ "Approved" ∉ validNextStatuses "Pending" :=
  ⟨rfl, rfl, rfl, rfl, rfl, by decide⟩

/-- Claim C1 (amended): `PUT /api/manufacturer/orders/update` succeeds
only when the requested status is in the allowed-next set for the found
order's current status, and then stores exactly that status; the second
mutation route, `PUT /api/order/status/:id`, applies any requested status
without consulting the table. -/
theorem c1_update_requires_legal_transition (now : Nat) (user : Claims)
    (orderId status : Option String) (store : Store) (order o : Order) (store2 : Store)
    (hfind : findOneOwned store (orderId.getD "") user.id = some order)
    (hr : manufacturerOrdersUpdate now user orderId status store = (.ok o, store2)) :
    status.getD "" ∈ validNextStatuses order.status
    ∧ o = setOrderStatus order (status.getD "") now := by
  simp only [manufacturerOrdersUpdate, updateValidate] at hr
  split at hr
  · simp [applyValidated] at hr
  split at hr
  · simp [applyValidated] at hr
  split at hr
  · simp [applyValidated] at hr
  rename_i o2 heq
  rw [hfind] at heq
  injection heq with h3
  subst h3
  split at hr
  · rename_i hcond
    simp only [applyValidated, Prod.mk.injEq, UpdateResult.ok.injEq] at hr
    exact ⟨List.mem_of_elem_eq_true hcond, hr.1.symm⟩
  · simp [applyValidated] at hr

/-- Claim C1 witness: the owning manufacturer moving the sample order
`Pending → Allowed` takes a table edge and stores `Allowed`. -/
theorem c1_update_requires_legal_transition_witness :
    "Allowed" ∈ validNextStatuses sampleOrder.status
    ∧ setOrderStatus sampleOrder "Allowed" 2000 = setOrderStatus sampleOrder "Allowed" 2000 :=
  c1_update_requires_legal_transition 2000 mfr1 (some "o1") (some "Allowed") store0
    sampleOrder (setOrderStatus sampleOrder "Allowed" 2000)
    (updateStatusById store0 "o1" "Allowed" 2000) rfl rfl

/-! ### Claim C5 — the invalid-transition error reports the legal set -/

/-- Claim C5: when `PUT /api/manufacturer/orders/update` rejects a
transition as illegal, the reported `allowed` array is exactly
`validNextStatuses` of the order's current status; that set is empty for
`Delivered` and `Cancelled` and is `["Delivered", "Cancelled"]` for
`Approved`. -/
theorem c5_invalid_transition_reports_allowed (now : Nat) (user : Claims)
    (orderId status : Option String) (store : Store) (order : Order)
    (allowed : List String) (store2 : Store)
    (hfind : findOneOwned store (orderId.getD "") user.id = some order)
    (hr : manufacturerOrdersUpdate now user orderId status store
            = (.invalidTransition allowed, store2)) :
    allowed = validNextStatuses order.status
    ∧ validNextStatuses "Delivered" = []
    ∧ validNextStatuses "Cancelled" = []
    ∧ validNextStatuses "Approved" = ["Delivered", "Cancelled"] := by
  simp only [manufacturerOrdersUpdate, updateValidate] at hr
  split at hr
  · simp [applyValidated] at hr
  split at hr
  · simp [applyValidated] at hr
  split at hr
  · simp [applyValidated] at hr
  rename_i o2 heq
  rw [hfind] at heq
  injection heq with h3
  subst h3
  split at hr
  · simp [applyValidated] at hr
  · simp only [applyValidated, Prod.mk.injEq, UpdateResult.invalidTransition.injEq] at hr
    exact ⟨hr.1.symm, rfl, rfl, rfl⟩

/-- Claim C5 witness: requesting `Pending` on an `Approved` order is
rejected with the allowed set `["Delivered", "Cancelled"]`. -/
theorem c5_invalid_transition_reports_allowed_witness :
    ["Delivered", "Cancelled"] = validNextStatuses sampleOrderApproved.status
    ∧ validNextStatuses "Delivered" = []
    ∧ validNextStatuses "Cancelled" = []
    ∧ validNextStatuses "Approved" = ["Delivered", "Cancelled"] :=
  c5_invalid_transition_reports_allowed 2000 mfr1 (some "o1") (some "Pending")
    storeApproved sampleOrderApproved ["Delivered", "Cancelled"] storeApproved rfl rfl

/-! ### Claim C4 — distinctness of failure outcomes -/

/-- Claim C4 counterexample: on `PUT /api/manufacturer/orders/update`, a
manufacturer attempting a perfectly legal transition on an order that
exists but is owned by someone else receives `notFound` — the very same
outcome as for an order that does not exist — not a distinct
authorization failure: the route runs one combined
`findOne({_id, manufacturerId})` query. -/
theorem c4_not_owned_reported_not_found :
    (manufacturerOrdersUpdate 2000 mfr2 (some "o1") (some "Allowed") store0).1
      = UpdateResult.notFound
    ∧ (manufacturerOrdersUpdate 2000 mfr2 (some "missing") (some "Allowed") store0).1
      = UpdateResult.notFound
    ∧ findById store0 "o1" = some sampleOrder
    ∧ sampleOrder.manufacturerId = some "m1"
    ∧ mfr2.id = "m2"
    ∧ mfr2.type = "manufacturer"
    ∧ "Allowed" ∈ validNextStatuses sampleOrder.status :=
  ⟨rfl, rfl, rfl, rfl, rfl, rfl, by decide⟩

/-- Claim C4 (amended): a non-manufacturer actor gets an authorization
failure on both mutation routes, regardless of transition validity.  On
`PUT /api/order/status/:id` the remaining outcomes are distinct as
claimed: absent order → not-found, present but not owned → authorization
failure.  On `PUT /api/manufacturer/orders/update`, however, an order
that is absent and an order that exists but is not owned by the actor
both surface as the same not-found outcome. -/
theorem c4_failure_taxonomy (now : Nat) (user : Claims) (oid : OrderId) (bs : Option String)
    (orderId status : Option String) (store : Store) :
    (user.type ≠ "manufacturer" → (orderStatusById now user oid bs store).1 = .accessDenied)
    ∧ (user.type = "manufacturer" → findById store oid = none →
        (orderStatusById now user oid bs store).1 = .notFound)
    ∧ (∀ o m, user.type = "manufacturer" → findById store oid = some o →
        o.manufacturerId = some m → m ≠ user.id →
        (orderStatusById now user oid bs store).1 = .notAuthorized)
    ∧ (user.type ≠ "manufacturer" →
        (manufacturerOrdersUpdate now user orderId status store).1 = .accessDenied)
    ∧ (user.type = "manufacturer" → truthyStr orderId = true → truthyStr status = true →
        findOneOwned store (orderId.getD "") user.id = none →
        (manufacturerOrdersUpdate now user orderId status store).1 = .notFound) := by
  refine ⟨?_, ?_, ?_, ?_, ?_⟩
  · intro h; simp [orderStatusById, h]
  · intro h h2; simp [orderStatusById, h, h2]
  · intro o m h h2 hm hne; simp [orderStatusById, h, h2, hm, hne]
  · intro h; simp [manufacturerOrdersUpdate, updateValidate, applyValidated, h]
  · intro h h1 h2 h3
    simp [manufacturerOrdersUpdate, updateValidate, applyValidated, h, h1, h2, h3]

/-- Claim C4 witness: on `PUT /api/order/status/:id`, manufacturer `m2`
touching the order owned by `m1` gets the distinct authorization
outcome. -/
theorem c4_failure_taxonomy_witness :
    (orderStatusById 2000 mfr2 "o1" (some "Allowed") store0).1
      = StatusByIdResult.notAuthorized :=
  (c4_failure_taxonomy 2000 mfr2 "o1" (some "Allowed") (some "o1") (some "Allowed")
    store0).2.2.1 sampleOrder "m1" rfl rfl rfl (by decide)

/-! ### Claim C6 — effect and frame of a successful transition -/

/-- Claim C6 counterexample: `PUT /api/order/status/:id` succeeds — the
store now holds the transitioned order — but its success response carries
no order payload (`res.json({ message: "Status updated" })`), so the
updated record is not returned to the caller on every successful
transition. -/
theorem c6_statusById_returns_no_record :
    (orderStatusById 2000 mfr1 "o1" (some "Allowed") store0).1 = StatusByIdResult.ok none
    ∧ findById (orderStatusById 2000 mfr1 "o1" (some "Allowed") store0).2 "o1"
        = some (setOrderStatusOpt sampleOrder (some "Allowed") 2000)
    ∧ (setOrderStatusOpt sampleOrder (some "Allowed") 2000).status = "Allowed" :=
  ⟨rfl, rfl, rfl⟩

/-- Claim C6 (amended): on a successful `PUT /api/manufacturer/orders/update`
the returned record has the requested status, `statusUpdatedAt` equal to
the current time, every creation-time field unchanged, and the store write
touches only those two fields of the addressed document; a successful
`PUT /api/order/status/:id` makes the same two-field write but returns no
record. -/
theorem c6_transition_effect_and_frame (now : Nat) (user : Claims)
    (orderId status : Option String) (store : Store) (order o : Order) (store2 : Store)
    (hfind : findOneOwned store (orderId.getD "") user.id = some order)
    (hr : manufacturerOrdersUpdate now user orderId status store = (.ok o, store2)) :
    o.status = status.getD ""
    ∧ o.statusUpdatedAt = some now
    ∧ store2 = updateStatusById store (orderId.getD "") (status.getD "") now
    ∧ sameSnapshotFields o order
    ∧ (∀ oid2 bs ret store3, orderStatusById now user oid2 bs store = (.ok ret, store3) →
        ret = none ∧ store3 = updateStatusOptById store oid2 bs now) := by
  have hend2 : ∀ oid2 bs ret store3,
      orderStatusById now user oid2 bs store = (.ok ret, store3) →
      ret = none ∧ store3 = updateStatusOptById store oid2 bs now := by
    intro oid2 bs ret store3 h
    unfold orderStatusById at h
    split at h
    · simp at h
    split at h
    · simp at h
    split at h
    · simp at h
    split at h
    · simp at h
    · simp only [Prod.mk.injEq, StatusByIdResult.ok.injEq] at h
      exact ⟨h.1.symm, h.2.symm⟩
  simp only [manufacturerOrdersUpdate, updateValidate] at hr
  split at hr
  · simp [applyValidated] at hr
  split at hr
  · simp [applyValidated] at hr
  split at hr
  · simp [applyValidated] at hr
  rename_i o2 heq
  rw [hfind] at heq
  injection heq with h3
  subst h3
  split at hr
  · simp only [applyValidated, Prod.mk.injEq, UpdateResult.ok.injEq] at hr
    obtain ⟨h1, h2⟩ := hr
    subst h1
    refine ⟨rfl, rfl, h2.symm, ?_, hend2⟩
    simp [sameSnapshotFields, setOrderStatus]
  · simp [applyValidated] at hr

/-- Claim C6 witness: the sample transition `Pending → Allowed` stamps
`statusUpdatedAt` and leaves every creation-time field of the sample order
as it was. -/
theorem c6_transition_effect_and_frame_witness :
    (setOrderStatus sampleOrder "Allowed" 2000).statusUpdatedAt = some 2000
    ∧ sameSnapshotFields (setOrderStatus sampleOrder "Allowed" 2000) sampleOrder := by
  have h := c6_transition_effect_and_frame 2000 mfr1 (some "o1") (some "Allowed") store0
    sampleOrder (setOrderStatus sampleOrder "Allowed" 2000)
    (updateStatusById store0 "o1" "Allowed" 2000) rfl rfl
  exact ⟨h.2.1, h.2.2.2.1⟩

/-! ### Claim C7 — who can read an order -/

/-- Claim C7 counterexample: `GET /api/buyer/:buyerId/orders`,
`GET /api/orders/buyer/:id` and `GET /api/orders/manufacturer/:id` mount
no authentication middleware; their output depends only on the URL
parameter and the store, so a caller presenting no identity at all reads
the full order record. -/
theorem c7_unauthenticated_read :
    getBuyerOrdersParam "b1" store0 = [sampleOrder]
    ∧ getOrdersBuyerParam "b1" store0 = [sampleOrder]
    ∧ getOrdersManufacturerParam "m1" store0 = [sampleOrder] :=
  ⟨rfl, rfl, rfl⟩

/-- Claim C7 (amended): the authenticated list routes return orders only
to an actor of the right kind and only the orders whose owner field
matches that actor; the parameterized routes are unauthenticated and
return the orders of whatever id the URL names, to any caller. -/
theorem c7_read_visibility (user : Claims) (store : Store) :
    (∀ l, getManufacturerOrders user store = .ok l →
        user.type = "manufacturer" ∧ ∀ o, o ∈ l → o.manufacturerId = some user.id)
    ∧ (∀ l, getOrdersBuyer user store = .ok l →
        user.type = "buyer" ∧ ∀ o, o ∈ l → o.buyerId = some (jsOrStr user.buyerId user.id))
    ∧ (∀ l, getOrdersManufacturer user store = .ok l →
        user.type = "manufacturer" ∧ ∀ o, o ∈ l → o.manufacturerId = some user.id)
    ∧ (∀ bid, getBuyerOrdersParam bid store = findByBuyer store bid) := by
  refine ⟨?_, ?_, ?_, fun _ => rfl⟩
  · intro l h
    unfold getManufacturerOrders at h
    split at h
    · simp at h
    · rename_i htype
      injection h with h2
      subst h2
      refine ⟨not_not.mp htype, fun o ho => ?_⟩
      exact eq_of_beq (List.mem_filter.mp ho).2
  · intro l h
    unfold getOrdersBuyer at h
    split at h
    · simp at h
    · rename_i htype
      injection h with h2
      subst h2
      refine ⟨not_not.mp htype, fun o ho => ?_⟩
      exact eq_of_beq (List.mem_filter.mp ho).2
  · intro l h
    unfold getOrdersManufacturer at h
    split at h
    · simp at h
    · rename_i htype
      injection h with h2
      subst h2
      refine ⟨not_not.mp htype, fun o ho => ?_⟩
      exact eq_of_beq (List.mem_filter.mp ho).2

/-- Claim C7 witness: manufacturer `m1` listing orders sees the sample
order, and it is indeed owned by `m1`. -/
theorem c7_read_visibility_witness :
    mfr1.type = "manufacturer" ∧ sampleOrder.manufacturerId = some mfr1.id := by
  have h := (c7_read_visibility mfr1 store0).1 [sampleOrder] rfl
  exact ⟨h.1, h.2 sampleOrder (by simp)⟩

/-! ### Claim C8 — failed attempts leave the store unchanged -/

/-- Claim C8: on both mutation routes, every failure outcome (wrong actor
kind, missing field, not found / not owned, illegal transition) is
answered before the store write runs, so the store after a failed attempt
is exactly the store before it. -/
theorem c8_failed_attempt_preserves_store (now : Nat) (user : Claims)
    (orderId status : Option String) (oid : OrderId) (bs : Option String) (store : Store) :
    (∀ r store2, manufacturerOrdersUpdate now user orderId status store = (r, store2) →
        r.isFailure = true → store2 = store)
    ∧ (∀ r store2, orderStatusById now user oid bs store = (r, store2) →
        r.isFailure = true → store2 = store) := by
  refine ⟨?_, ?_⟩
  · intro r store2 hr hf
    simp only [manufacturerOrdersUpdate, updateValidate] at hr
    split at hr
    · simp only [applyValidated, Prod.mk.injEq] at hr
      exact hr.2.symm
    split at hr
    · simp only [applyValidated, Prod.mk.injEq] at hr
      exact hr.2.symm
    split at hr
    · simp only [applyValidated, Prod.mk.injEq] at hr
      exact hr.2.symm
    split at hr
    · simp only [applyValidated, Prod.mk.injEq] at hr
      obtain ⟨h1, h2⟩ := hr
      rw [← h1] at hf
      simp [UpdateResult.isFailure] at hf
    · simp only [applyValidated, Prod.mk.injEq] at hr
      exact hr.2.symm
  · intro r store2 hr hf
    unfold orderStatusById at hr
    split at hr
    · exact ((Prod.mk.injEq _ _ _ _).mp hr).2.symm
    split at hr
    · exact ((Prod.mk.injEq _ _ _ _).mp hr).2.symm
    split at hr
    · exact ((Prod.mk.injEq _ _ _ _).mp hr).2.symm
    split at hr
    · exact ((Prod.mk.injEq _ _ _ _).mp hr).2.symm
    · obtain ⟨h1, h2⟩ := (Prod.mk.injEq _ _ _ _).mp hr
      rw [← h1] at hf
      simp [StatusByIdResult.isFailure] at hf

/-- Claim C8 witness: manufacturer `m2` failing to update the order owned
by `m1` leaves the store exactly as it was. -/
theorem c8_failed_attempt_preserves_store_witness :
    (manufacturerOrdersUpdate 2000 mfr2 (some "o1") (some "Allowed") store0).2 = store0 :=
  (c8_failed_attempt_preserves_store 2000 mfr2 (some "o1") (some "Allowed") "o1"
    (some "Allowed") store0).1
    (manufacturerOrdersUpdate 2000 mfr2 (some "o1") (some "Allowed") store0).1
    (manufacturerOrdersUpdate 2000 mfr2 (some "o1") (some "Allowed") store0).2 rfl rfl

/-! ### Claim C9 — concurrency of two transition requests -/

/-- Claim C9 counterexample: two requests by the owning manufacturer on
the same `Pending` order, one asking `Allowed` and one asking `Cancelled`,
under the read-read-write-write interleaving: both report success, and the
final store holds `Cancelled` — the `Allowed` write is lost.  The claim
that exactly one succeeds, and that a lost update is impossible because
the write is a compare-and-swap, is false: the write is keyed only by the
order id. -/
theorem c9_interleaved_both_succeed :
    (interleavedUpdates 2000 mfr1 (some "o1") (some "Allowed") mfr1 (some "o1")
        (some "Cancelled") store0).1
      = UpdateResult.ok (setOrderStatus sampleOrder "Allowed" 2000)
    ∧ (interleavedUpdates 2000 mfr1 (some "o1") (some "Allowed") mfr1 (some "o1")
        (some "Cancelled") store0).2.1
      = UpdateResult.ok (setOrderStatus sampleOrder "Cancelled" 2000)
    ∧ findById (interleavedUpdates 2000 mfr1 (some "o1") (some "Allowed") mfr1 (some "o1")
        (some "Cancelled") store0).2.2 "o1"
      = some (setOrderStatus sampleOrder "Cancelled" 2000) :=
  ⟨rfl, rfl, rfl⟩

/-- Claim C9 (amended): the status update of
`PUT /api/manufacturer/orders/update` is an unconditional write keyed only
by the order id — not a write conditioned on the expected prior status —
so whenever both handlers read the same `Pending` order before either
writes, the `Allowed` request and the `Cancelled` request both succeed and
the two writes land one after the other, the second overwriting the
first. -/
theorem c9_unconditional_write_races (now : Nat) (user : Claims) (oid : String)
    (store : Store) (order : Order)
    (htype : user.type = "manufacturer") (hoid : oid ≠ "")
    (hfind : findOneOwned store oid user.id = some order)
    (hst : order.status = "Pending") :
    (interleavedUpdates now user (some oid) (some "Allowed") user (some oid)
        (some "Cancelled") store).1 = .ok (setOrderStatus order "Allowed" now)
    ∧ (interleavedUpdates now user (some oid) (some "Allowed") user (some oid)
        (some "Cancelled") store).2.1 = .ok (setOrderStatus order "Cancelled" now)
    ∧ (interleavedUpdates now user (some oid) (some "Allowed") user (some oid)
        (some "Cancelled") store).2.2
      = updateStatusById (updateStatusById store oid "Allowed" now) oid "Cancelled" now := by
  have hv1 : updateValidate user (some oid) (some "Allowed") store
      = .proceed oid "Allowed" order := by
    unfold updateValidate
    rw [if_neg (by simp [htype]), if_neg (by simp [truthyStr, hoid])]
    simp only [Option.getD_some]
    rw [hfind]
    simp only [hst]
    rfl
  have hv2 : updateValidate user (some oid) (some "Cancelled") store
      = .proceed oid "Cancelled" order := by
    unfold updateValidate
    rw [if_neg (by simp [htype]), if_neg (by simp [truthyStr, hoid])]
    simp only [Option.getD_some]
    rw [hfind]
    simp only [hst]
    rfl
  simp [interleavedUpdates, hv1, hv2, applyValidated]

/-- Claim C9 witness: the race on the concrete sample store. -/
theorem c9_unconditional_write_races_witness :
    (interleavedUpdates 2000 mfr1 (some "o1") (some "Allowed") mfr1 (some "o1")
        (some "Cancelled") store0).1 = .ok (setOrderStatus sampleOrder "Allowed" 2000)
    ∧ (interleavedUpdates 2000 mfr1 (some "o1") (some "Allowed") mfr1 (some "o1")
        (some "Cancelled") store0).2.1 = .ok (setOrderStatus sampleOrder "Cancelled" 2000)
    ∧ (interleavedUpdates 2000 mfr1 (some "o1") (some "Allowed") mfr1 (some "o1")
        (some "Cancelled") store0).2.2
      = updateStatusById (updateStatusById store0 "o1" "Allowed" 2000) "o1" "Cancelled" 2000 :=
  c9_unconditional_write_races 2000 mfr1 "o1" store0 sampleOrder rfl (by decide) rfl rfl

end Marketplace
